import Mathlib

/-!
Verification development for the BeaverDoc repository.

The repository's core routine is the PDF footer stamper
`addUidAndTokenToPdf` (src/unnamed/part_000): it loads a PDF, embeds the
Helvetica font, and for every page builds a one-line footer string from the
caller's `uid`, `token`, the page's 1-based position, the total page count
and (when the optional `signatureInfo` argument is truthy) the signature
text plus a French-locale timestamp; the text is drawn centred near the
bottom edge in pale gray at 50% opacity, and the whole document is
re-serialised.  Any error inside the routine is caught and replaced by a
single generic error.

The surrounding layer (src/server/routes.ts) supplies `uid`/`token` via
`generateUID`/`generateToken` and exposes an upload endpoint
(`POST /api/documents/upload`) whose control flow we also embed.

The third-party `pdf-lib` library is modelled as an explicit interface
(`PdfLib`): `load`, `embedFont` and `save` are fallible black boxes, text
measurement (`PdfFont.widthOfTextAtSize`) is a fallible metric, and
`page.drawText` appends one drawing operation to the page's content
(pdf-lib pushes operators onto the existing content stream, so drawing is
additive).  Machine reals (page sizes, font metrics) are modelled as `ℚ`.
Ambient effects that the code reads once per call (the current time, the
random UUID source) are passed in as explicit arguments.
-/

namespace BeaverDoc

/-- One text-drawing operation on a page, as passed to `page.drawText`. -/
structure DrawOp where
  text : String
  x : ℚ
  y : ℚ
  size : ℚ
  color : ℚ × ℚ × ℚ
  opacity : ℚ
deriving DecidableEq

/-- A PDF page: a size and an ordered list of drawing operations already
present in its content stream. -/
structure PdfPage where
  width : ℚ
  height : ℚ
  ops : List DrawOp
deriving DecidableEq

/-- A parsed PDF document: its ordered page collection. -/
structure PdfDoc where
  pages : List PdfPage
deriving DecidableEq

/-- An embedded font, reduced to the one capability the stamper uses:
measuring the width of a text at a font size.  Measurement may fail
(e.g. glyphs the font cannot encode), which the source's `try` block
would catch. -/
structure PdfFont where
  widthOfTextAtSize : String → ℚ → Except String ℚ

/-- The `pdf-lib` operations the stamper calls, each fallible. -/
structure PdfLib where
  load : List Nat → Except String PdfDoc
  embedFont : PdfDoc → String → Except String PdfFont
  save : PdfDoc → Except String (List Nat)

/-- The standard font name the stamper requests (`StandardFonts.Helvetica`). -/
def helvetica : String := "Helvetica"

/-- The fixed footer font size (`const fontSize = 6`). -/
def fontSize : ℚ := 6

/-- JavaScript truthiness of an optional string: `undefined` and `""` are
falsy, every other string is truthy. -/
def jsTruthyStr : Option String → Bool
  | none => false
  | some s => !s.isEmpty

/-- The footer text built for 0-based page index `i` of `n` pages
(template literal at line 41 of the source, plus the
`if (signatureInfo)` extension at lines 44-46). -/
def footerText (uid token : String) (i n : Nat) (signatureInfo : Option String)
    (timestamp : String) : String :=
  let text := "BeaverDoc - UID: " ++ uid ++ " | Token: " ++ token ++ " | Page "
    ++ toString (i + 1) ++ "/" ++ toString n
  if jsTruthyStr signatureInfo then
    text ++ " | " ++ signatureInfo.getD "" ++ " | Horodaté le " ++ timestamp
  else
    text

/-- `page.drawText`: pdf-lib appends the drawing operators to the page's
existing content stream, so it is modelled as appending one operation. -/
def drawText (page : PdfPage) (op : DrawOp) : PdfPage :=
  { page with ops := page.ops ++ [op] }

/-- The drawing options record the stamper passes to `drawText` for a page
of width `w` whose footer text measured `tw` wide: centred horizontally,
10 units from the bottom, size 6, pale gray `rgb(0.7, 0.7, 0.7)`,
opacity 0.5. -/
def footerOp (text : String) (w tw : ℚ) : DrawOp :=
  { text := text
  , x := (w - tw) / 2
  , y := 10
  , size := fontSize
  , color := (0.7, 0.7, 0.7)
  , opacity := 0.5 }

/-- One iteration of the stamping loop: build the footer text for page
index `i`, measure it, and draw it. -/
def stampPage (font : PdfFont) (uid token : String) (sig : Option String)
    (ts : String) (n i : Nat) (page : PdfPage) : Except String PdfPage :=
  let text := footerText uid token i n sig ts
  match font.widthOfTextAtSize text fontSize with
  | .error e => .error e
  | .ok textWidth => .ok (drawText page (footerOp text page.width textWidth))

/-- The stamping loop over the page list, carrying the 0-based index `i`;
a failure on any page aborts the whole loop (the source's exception
propagates out of the `for`). -/
def stampPages (font : PdfFont) (uid token : String) (sig : Option String)
    (ts : String) (n : Nat) : Nat → List PdfPage → Except String (List PdfPage)
  | _, [] => .ok []
  | i, page :: rest =>
    match stampPage font uid token sig ts n i page with
    | .error e => .error e
    | .ok p =>
      match stampPages font uid token sig ts n (i + 1) rest with
      | .error e => .error e
      | .ok ps => .ok (p :: ps)

/-- The generic error the stamper's `catch` block throws
(the source message, with the apostrophe escaped). -/
def genericStampError : String :=
  "Impossible de modifier le PDF pour ajouter l\x27UID et le token"

/-- The footer stamper `addUidAndTokenToPdf`: load, embed Helvetica,
compute the timestamp once (`nowTimestamp`, passed in explicitly), stamp
every page, serialise; every failure inside is collapsed by the `catch`
into the single generic error. -/
def addUidAndTokenToPdf (lib : PdfLib) (nowTimestamp : String)
    (pdfBuffer : List Nat) (uid token : String) (signatureInfo : Option String) :
    Except String (List Nat) :=
  match ((match lib.load pdfBuffer with
    | .error e => .error e
    | .ok pdfDoc =>
      match lib.embedFont pdfDoc helvetica with
      | .error e => .error e
      | .ok font =>
        match stampPages font uid token signatureInfo nowTimestamp
            pdfDoc.pages.length 0 pdfDoc.pages with
        | .error e => .error e
        | .ok stamped => lib.save { pages := stamped }) :
      Except String (List Nat)) with
  | .ok bytes => .ok bytes
  | .error _ => .error genericStampError

/-- JavaScript global dash-removing replace: remove every dash. -/
def stripDashes (s : String) : String := ⟨s.data.filter (fun c => c ≠ '-')⟩

/-- JavaScript `.substring(0, n)`: the first `n` characters. -/
def jsSubstring (s : String) (n : Nat) : String := ⟨s.data.take n⟩

/-- `generateUID` (routes.ts lines 15-24).  The ambient reads are passed
explicitly: `date` stands for the dash-stripped ISO date (`YYYYMMDD`),
`time` for the colon-stripped time (`HHMMSS`), `uuid` for the value of
`randomUUID()`. -/
def generateUID (date time uuid : String) : String :=
  let userId := "0042"
  let companyId := "7890"
  let random := jsSubstring (stripDashes uuid) 16
  "UID-" ++ date ++ "-" ++ time ++ "-USR" ++ userId ++ "-CPY" ++ companyId
    ++ "-" ++ random

/-- `generateToken` (routes.ts lines 26-33), same ambient-read convention
as `generateUID`. -/
def generateToken (date time uuid : String) : String :=
  let random := jsSubstring (stripDashes uuid) 16
  "DOC-" ++ date ++ "-" ++ time ++ "-" ++ random

/-- Lower-case hexadecimal digit, the alphabet of `randomUUID()`. -/
def isHexDigitChar (c : Char) : Bool :=
  c.isDigit || ('a' ≤ c && c ≤ 'f')

/-- The options object parsed from the upload request's `options` field. -/
structure UploadOptions where
  generateNewUid : Bool
  addToken : Bool
  signAfterImport : Bool
deriving DecidableEq

/-- The default options used when `req.body.options` is falsy
(routes.ts lines 66-70). -/
def defaultUploadOptions : UploadOptions :=
  { generateNewUid := true, addToken := true, signAfterImport := false }

/-- The multer file object the handler reads (`req.file`). -/
structure UploadFile where
  originalname : String
  buffer : List Nat
  mimetype : String
  size : Nat
deriving DecidableEq

/-- The parts of the upload request the handler inspects: the optional
attached file and the optional raw `options` string of the body. -/
structure UploadReq where
  file : Option UploadFile
  options : Option String
deriving DecidableEq

/-- The document record assembled by the upload handler before
validation (routes.ts lines 73-82). -/
structure DocRecord where
  name : String
  uid : String
  token : String
  content : String
  contentType : String
  size : String
  creatorId : Nat
  isSigned : Bool
deriving DecidableEq

/-- A stored document as returned by `storage.createDocument`: the record
plus the storage-assigned id. -/
structure StoredDoc where
  id : Nat
  stored : DocRecord
deriving DecidableEq

/-- An audit-log row as passed to `storage.createAuditLog`. -/
structure AuditEntry where
  documentId : Nat
  userId : Nat
  action : String
  details : String
deriving DecidableEq

/-- The collaborators of the upload handler, each a black box that may
throw: `JSON.parse` of the options string, the zod schema check, the two
storage calls; plus the ambient values the handler reads
(base64 rendering, size formatting, the generated uid and token). -/
structure UploadEnv where
  parseOptionsJson : String → Except String UploadOptions
  validateDoc : DocRecord → Except String DocRecord
  createDocument : DocRecord → Except String StoredDoc
  createAuditLog : AuditEntry → Except String Unit
  base64 : List Nat → String
  formatSize : Nat → String
  uidVal : String
  tokenVal : String

/-- The three responses the upload route can produce. -/
inductive UploadResponse where
  | badRequest (msg : String)
  | created (doc : StoredDoc)
  | serverError (msg : String)
deriving DecidableEq

/-- The 400 message of the upload route. -/
def noFileMsg : String := "Aucun fichier n\x27a été téléchargé"

/-- The generic 500 message of the upload route's `catch` block. -/
def uploadErrorMsg : String := "Erreur lors de l\x27importation du document"

/-- The body of the upload handler's `try` block (routes.ts lines 61-98):
either it returns a response normally (`.ok`) or it throws (`.error`).
The early `return 400` on a missing file is a normal return, not a throw;
`JSON.parse` runs only when the options string is truthy. -/
def uploadTryBody (env : UploadEnv) (req : UploadReq) :
    Except String UploadResponse :=
  match req.file with
  | none => .ok (.badRequest noFileMsg)
  | some file =>
    match (if jsTruthyStr req.options then
        env.parseOptionsJson (req.options.getD "")
      else
        .ok defaultUploadOptions) with
    | .error e => .error e
    | .ok options =>
      let document : DocRecord :=
        { name := file.originalname
        , uid := env.uidVal
        , token := env.tokenVal
        , content := env.base64 file.buffer
        , contentType := file.mimetype
        , size := env.formatSize file.size
        , creatorId := 1
        , isSigned := options.signAfterImport }
      match env.validateDoc document with
      | .error e => .error e
      | .ok validatedDoc =>
        match env.createDocument validatedDoc with
        | .error e => .error e
        | .ok createdDoc =>
          match env.createAuditLog
              { documentId := createdDoc.id
              , userId := 1
              , action := "create"
              , details := "Document uploaded: " ++ file.originalname } with
          | .error e => .error e
          | .ok _ => .ok (.created createdDoc)

/-- The upload handler: the `try` body's normal result, with any thrown
error collapsed by the `catch` into the generic 500. -/
def uploadHandler (env : UploadEnv) (req : UploadReq) : UploadResponse :=
  match uploadTryBody env req with
  | .ok resp => resp
  | .error _ => .serverError uploadErrorMsg

/-! ### Basic lemmas about the embedded operations -/

theorem drawText_ops (p : PdfPage) (op : DrawOp) :
    (drawText p op).ops = p.ops ++ [op] := rfl

theorem drawText_width (p : PdfPage) (op : DrawOp) :
    (drawText p op).width = p.width := rfl

theorem drawText_height (p : PdfPage) (op : DrawOp) :
    (drawText p op).height = p.height := rfl

/-- `stampPage` succeeds exactly when measuring the footer text succeeds,
and then draws the centred footer operation. -/
theorem stampPage_ok_iff {font : PdfFont} {uid token : String}
    {sig : Option String} {ts : String} {n i : Nat} {page out : PdfPage} :
    stampPage font uid token sig ts n i page = .ok out ↔
      ∃ tw, font.widthOfTextAtSize (footerText uid token i n sig ts) fontSize
          = .ok tw ∧
        out = drawText page
          (footerOp (footerText uid token i n sig ts) page.width tw) := by
  unfold stampPage
  cases h : font.widthOfTextAtSize (footerText uid token i n sig ts) fontSize with
  | error e => simp [h]
  | ok tw =>
    simp only [h, Except.ok.injEq]
    constructor
    · intro hout
      exact ⟨tw, rfl, hout.symm⟩
    · rintro ⟨tw2, htw2, hout⟩
      cases htw2
      exact hout.symm

/-- Characterisation of a successful run of the stamping loop: the output
has the same length, and position `j` is the input page `j` with exactly
the footer for index `i + j` drawn on it. -/
theorem stampPages_ok_spec {font : PdfFont} {uid token : String}
    {sig : Option String} {ts : String} {n : Nat} {ps : List PdfPage}
    {i : Nat} {out : List PdfPage}
    (h : stampPages font uid token sig ts n i ps = .ok out) :
    out.length = ps.length ∧
      ∀ j, j < ps.length → ∃ p tw,
        ps[j]? = some p ∧
        font.widthOfTextAtSize (footerText uid token (i + j) n sig ts) fontSize
          = .ok tw ∧
        out[j]? = some (drawText p
          (footerOp (footerText uid token (i + j) n sig ts) p.width tw)) := by
  induction ps generalizing i out with
  | nil =>
    simp only [stampPages] at h
    cases h
    exact ⟨rfl, by intro j hj; exact absurd hj (by simp)⟩
  | cons page rest ih =>
    simp only [stampPages] at h
    cases h1 : stampPage font uid token sig ts n i page with
    | error e => rw [h1] at h; cases h
    | ok p =>
      rw [h1] at h
      cases h2 : stampPages font uid token sig ts n (i + 1) rest with
      | error e => rw [h2] at h; cases h
      | ok ps2 =>
        rw [h2] at h
        cases h
        obtain ⟨tw, htw, hp⟩ := stampPage_ok_iff.mp h1
        obtain ⟨hlen, hall⟩ := ih h2
        refine ⟨by simp [hlen], ?_⟩
        intro j hj
        cases j with
        | zero =>
          refine ⟨page, tw, by simp, ?_, ?_⟩
          · simpa using htw
          · simpa using hp
        | succ k =>
          obtain ⟨q, tw2, hq, htw2, hout2⟩ := hall k (by simpa using hj)
          have hidx : i + 1 + k = i + (k + 1) := by omega
          refine ⟨q, tw2, by simpa using hq, ?_, ?_⟩
          · rw [← hidx]; exact htw2
          · rw [← hidx]; simpa using hout2

/-- A successful run of `addUidAndTokenToPdf` decomposes into a successful
load, font embedding, full stamping pass and save. -/
theorem addUidAndTokenToPdf_ok_elim {lib : PdfLib} {ts : String}
    {buf : List Nat} {uid token : String} {sig : Option String}
    {bytes : List Nat}
    (h : addUidAndTokenToPdf lib ts buf uid token sig = .ok bytes) :
    ∃ doc font stamped,
      lib.load buf = .ok doc ∧
      lib.embedFont doc helvetica = .ok font ∧
      stampPages font uid token sig ts doc.pages.length 0 doc.pages
        = .ok stamped ∧
      lib.save { pages := stamped } = .ok bytes := by
  unfold addUidAndTokenToPdf at h
  split at h
  · rename_i b heq
    split at heq
    · cases heq
    · rename_i doc hload
      split at heq
      · cases heq
      · rename_i font hfont
        split at heq
        · cases heq
        · rename_i stamped hstamp
          cases h
          exact ⟨doc, font, stamped, hload, hfont, hstamp, heq⟩
  · cases h

/-- Conversely, a successful pipeline assembles into a successful call. -/
theorem addUidAndTokenToPdf_ok_intro {lib : PdfLib} {ts : String}
    {buf : List Nat} {uid token : String} {sig : Option String}
    {doc : PdfDoc} {font : PdfFont} {stamped : List PdfPage}
    {bytes : List Nat}
    (h1 : lib.load buf = .ok doc)
    (h2 : lib.embedFont doc helvetica = .ok font)
    (h3 : stampPages font uid token sig ts doc.pages.length 0 doc.pages
      = .ok stamped)
    (h4 : lib.save { pages := stamped } = .ok bytes) :
    addUidAndTokenToPdf lib ts buf uid token sig = .ok bytes := by
  unfold addUidAndTokenToPdf
  simp only [h1, h2, h3, h4]

/-- Every run of the stamper either returns bytes or the one generic
error: no other failure value ever escapes. -/
theorem addUidAndTokenToPdf_ok_or_generic (lib : PdfLib) (ts : String)
    (buf : List Nat) (uid token : String) (sig : Option String) :
    (∃ bytes, addUidAndTokenToPdf lib ts buf uid token sig = .ok bytes) ∨
      addUidAndTokenToPdf lib ts buf uid token sig
        = .error genericStampError := by
  unfold addUidAndTokenToPdf
  split
  · rename_i b heq
    exact .inl ⟨b, rfl⟩
  · exact .inr rfl

/-! ### Lemmas about the footer text -/

theorem footerText_none (uid token : String) (i n : Nat) (ts : String) :
    footerText uid token i n none ts =
      "BeaverDoc - UID: " ++ uid ++ " | Token: " ++ token ++ " | Page "
        ++ toString (i + 1) ++ "/" ++ toString n := by
  simp [footerText, jsTruthyStr]

theorem footerText_some (uid token : String) (i n : Nat) (s ts : String)
    (hs : s.isEmpty = false) :
    footerText uid token i n (some s) ts =
      "BeaverDoc - UID: " ++ uid ++ " | Token: " ++ token ++ " | Page "
        ++ toString (i + 1) ++ "/" ++ toString n ++ " | " ++ s
        ++ " | Horodaté le " ++ ts := by
  simp [footerText, jsTruthyStr, hs]

/-- An empty signature string is falsy, so the footer is built exactly as
when no signature was supplied. -/
theorem footerText_some_empty (uid token : String) (i n : Nat) (ts : String) :
    footerText uid token i n (some "") ts =
      footerText uid token i n none ts := rfl

/-- The footer splits as a common prefix, the 1-based page number, and a
common suffix (containing the total page count and, when the signature is
truthy, the signature text and the timestamp). -/
theorem footerText_split (uid token : String) (i n : Nat)
    (sig : Option String) (ts : String) :
    footerText uid token i n sig ts =
      ("BeaverDoc - UID: " ++ uid ++ " | Token: " ++ token ++ " | Page ")
        ++ toString (i + 1)
        ++ (if jsTruthyStr sig then
              "/" ++ toString n ++ " | " ++ sig.getD "" ++ " | Horodaté le "
                ++ ts
            else "/" ++ toString n) := by
  unfold footerText
  cases htr : jsTruthyStr sig <;> simp [htr, String.append_assoc]

/-- The caller's `uid` appears verbatim in every footer. -/
theorem footerText_has_uid (uid token : String) (i n : Nat)
    (sig : Option String) (ts : String) :
    ∃ a b, footerText uid token i n sig ts = a ++ uid ++ b := by
  unfold footerText
  cases htr : jsTruthyStr sig with
  | false =>
    refine ⟨"BeaverDoc - UID: ",
      " | Token: " ++ token ++ " | Page " ++ toString (i + 1) ++ "/"
        ++ toString n, ?_⟩
    simp [htr, String.append_assoc]
  | true =>
    refine ⟨"BeaverDoc - UID: ",
      " | Token: " ++ token ++ " | Page " ++ toString (i + 1) ++ "/"
        ++ toString n ++ " | " ++ sig.getD "" ++ " | Horodaté le " ++ ts, ?_⟩
    simp [htr, String.append_assoc]

/-- The caller's `token` appears verbatim in every footer. -/
theorem footerText_has_token (uid token : String) (i n : Nat)
    (sig : Option String) (ts : String) :
    ∃ a b, footerText uid token i n sig ts = a ++ token ++ b := by
  unfold footerText
  cases htr : jsTruthyStr sig with
  | false =>
    refine ⟨"BeaverDoc - UID: " ++ uid ++ " | Token: ",
      " | Page " ++ toString (i + 1) ++ "/" ++ toString n, ?_⟩
    simp [htr, String.append_assoc]
  | true =>
    refine ⟨"BeaverDoc - UID: " ++ uid ++ " | Token: ",
      " | Page " ++ toString (i + 1) ++ "/" ++ toString n ++ " | "
        ++ sig.getD "" ++ " | Horodaté le " ++ ts, ?_⟩
    simp [htr, String.append_assoc]

/-- Since the footer text agrees, the per-page stamping step treats an
empty signature string exactly like an absent one. -/
theorem stampPage_some_empty (font : PdfFont) (uid token ts : String)
    (n i : Nat) (page : PdfPage) :
    stampPage font uid token (some "") ts n i page =
      stampPage font uid token none ts n i page := by
  unfold stampPage
  rw [footerText_some_empty]

/-- The stamping loop treats an empty signature string exactly like an
absent one. -/
theorem stampPages_some_empty (font : PdfFont) (uid token ts : String)
    (n : Nat) : ∀ (i : Nat) (ps : List PdfPage),
    stampPages font uid token (some "") ts n i ps =
      stampPages font uid token none ts n i ps := by
  intro i ps
  induction ps generalizing i with
  | nil => rfl
  | cons page rest ih =>
    simp only [stampPages, stampPage_some_empty, ih]

/-- The whole stamper treats an empty signature string exactly like an
absent one: the two calls are equal on every input. -/
theorem addUidAndTokenToPdf_some_empty (lib : PdfLib) (ts : String)
    (buf : List Nat) (uid token : String) :
    addUidAndTokenToPdf lib ts buf uid token (some "") =
      addUidAndTokenToPdf lib ts buf uid token none := by
  unfold addUidAndTokenToPdf
  simp only [stampPages_some_empty]

/-! ### Lemmas about the identifier generators -/

/-- `generateUID` produces the documented format, with the two fixed
identifiers fused into the literal text. -/
theorem generateUID_shape (date time uuid : String) :
    generateUID date time uuid =
      "UID-" ++ date ++ "-" ++ time ++ "-USR0042-CPY7890-"
        ++ jsSubstring (stripDashes uuid) 16 := by
  simp only [generateUID]
  have h : ("-USR0042-CPY7890-" : String)
      = "-USR" ++ ("0042" ++ ("-CPY" ++ ("7890" ++ "-"))) := by decide
  rw [h]
  simp only [String.append_assoc]

/-- `generateToken` produces the documented format. -/
theorem generateToken_shape (date time uuid : String) :
    generateToken date time uuid =
      "DOC-" ++ date ++ "-" ++ time ++ "-"
        ++ jsSubstring (stripDashes uuid) 16 := rfl

theorem jsSubstring_length (s : String) (n : Nat) (h : n ≤ s.length) :
    (jsSubstring s n).length = n := by
  show (s.data.take n).length = n
  rw [List.length_take]
  have hs : s.length = s.data.length := rfl
  omega

theorem jsSubstring_mem (s : String) (n : Nat) (c : Char)
    (hc : c ∈ (jsSubstring s n).data) : c ∈ s.data :=
  List.take_subset n s.data hc

/-! ### Concrete sample library instances used to exercise the theorems -/

/-- A font whose measurement always succeeds with width 100. -/
def sampleFont : PdfFont := ⟨fun _ _ => .ok 100⟩

/-- A font whose measurement always succeeds with width 40, wider than
`narrowPage`. -/
def wideFont : PdfFont := ⟨fun _ _ => .ok 40⟩

/-- A failing font: measurement always throws. -/
def failFont : PdfFont := ⟨fun _ _ => .error "unsupported glyph"⟩

def samplePage : PdfPage := { width := 612, height := 792, ops := [] }

def narrowPage : PdfPage := { width := 10, height := 20, ops := [] }

def sampleDoc1 : PdfDoc := { pages := [samplePage] }

def sampleDoc3 : PdfDoc := { pages := [samplePage, samplePage, samplePage] }

def sampleLib1 : PdfLib :=
  { load := fun _ => .ok sampleDoc1
  , embedFont := fun _ _ => .ok sampleFont
  , save := fun _ => .ok [42] }

def sampleLib3 : PdfLib :=
  { load := fun _ => .ok sampleDoc3
  , embedFont := fun _ _ => .ok sampleFont
  , save := fun _ => .ok [42] }

/-- The one-page sample after one stamping pass. -/
def stampedOncePages : List PdfPage :=
  match stampPages sampleFont "u" "t" none "ts0" 1 0 [samplePage] with
  | .ok ps => ps
  | .error _ => []

/-- The one-page sample after two stamping passes. -/
def stampedTwicePages : List PdfPage :=
  match stampPages sampleFont "u" "t" none "ts0" stampedOncePages.length 0
      stampedOncePages with
  | .ok ps => ps
  | .error _ => []

/-- The three-page sample stamped once with a signature. -/
def stampedDoc3Pages : List PdfPage :=
  match stampPages sampleFont "u" "t" (some "Sig") "ts0" 3 0
      sampleDoc3.pages with
  | .ok ps => ps
  | .error _ => []

/-- A library whose serialisation and parsing round-trip on the sample
document: byte 0 encodes the fresh document, byte 1 the stamped one. -/
def roundLib : PdfLib :=
  { load := fun b =>
      if b = [0] then .ok sampleDoc1 else .ok { pages := stampedOncePages }
  , embedFont := fun _ _ => .ok sampleFont
  , save := fun d =>
      if d.pages = sampleDoc1.pages then .ok [0] else .ok [1] }

/-! ### The claims -/

/-- C1: for every valid PDF input and caller strings `uid` and `token`,
when `signatureInfo` is not supplied, the footer drawn on 0-based page `i`
of `N` is exactly
`BeaverDoc - UID: <uid> | Token: <token> | Page <i+1>/<N>`, containing
`uid` and `token` verbatim. -/
theorem claim1_footer_exact (lib : PdfLib) (ts : String) (buf : List Nat)
    (uid token : String) (doc : PdfDoc) (bytes : List Nat)
    (hload : lib.load buf = .ok doc)
    (h : addUidAndTokenToPdf lib ts buf uid token none = .ok bytes) :
    ∃ font stamped,
      lib.embedFont doc helvetica = .ok font ∧
      stampPages font uid token none ts doc.pages.length 0 doc.pages
        = .ok stamped ∧
      lib.save { pages := stamped } = .ok bytes ∧
      ∀ i, i < doc.pages.length → ∃ p tw,
        doc.pages[i]? = some p ∧
        stamped[i]? = some (drawText p
          (footerOp (footerText uid token i doc.pages.length none ts)
            p.width tw)) ∧
        footerText uid token i doc.pages.length none ts =
          "BeaverDoc - UID: " ++ uid ++ " | Token: " ++ token ++ " | Page "
            ++ toString (i + 1) ++ "/" ++ toString doc.pages.length ∧
        (∃ a b, footerText uid token i doc.pages.length none ts
          = a ++ uid ++ b) ∧
        (∃ a b, footerText uid token i doc.pages.length none ts
          = a ++ token ++ b) := by
  obtain ⟨doc2, font, stamped, hload2, hfont, hstamp, hsave⟩ :=
    addUidAndTokenToPdf_ok_elim h
  rw [hload] at hload2
  cases hload2
  refine ⟨font, stamped, hfont, hstamp, hsave, ?_⟩
  intro i hi
  obtain ⟨p, tw, hp, htw, hout⟩ := (stampPages_ok_spec hstamp).2 i hi
  rw [Nat.zero_add] at htw hout
  exact ⟨p, tw, hp, hout, footerText_none uid token i doc.pages.length ts,
    footerText_has_uid uid token i doc.pages.length none ts,
    footerText_has_token uid token i doc.pages.length none ts⟩

/-- C1 witness: a one-page document with uid `UID-X` and token `DOC-Y` and
no signature has footer `BeaverDoc - UID: UID-X | Token: DOC-Y | Page 1/1`. -/
theorem claim1_witness :
    footerText "UID-X" "DOC-Y" 0 1 none "ts0" =
      "BeaverDoc - UID: UID-X | Token: DOC-Y | Page 1/1" ∧
    (∃ font stamped,
      sampleLib1.embedFont sampleDoc1 helvetica = .ok font ∧
      stampPages font "UID-X" "DOC-Y" none "ts0" sampleDoc1.pages.length 0
        sampleDoc1.pages = .ok stamped ∧
      sampleLib1.save { pages := stamped } = .ok [42] ∧
      ∀ i, i < sampleDoc1.pages.length → ∃ p tw,
        sampleDoc1.pages[i]? = some p ∧
        stamped[i]? = some (drawText p
          (footerOp (footerText "UID-X" "DOC-Y" i sampleDoc1.pages.length
            none "ts0") p.width tw)) ∧
        footerText "UID-X" "DOC-Y" i sampleDoc1.pages.length none "ts0" =
          "BeaverDoc - UID: " ++ "UID-X" ++ " | Token: " ++ "DOC-Y"
            ++ " | Page " ++ toString (i + 1) ++ "/"
            ++ toString sampleDoc1.pages.length ∧
        (∃ a b, footerText "UID-X" "DOC-Y" i sampleDoc1.pages.length none
          "ts0" = a ++ "UID-X" ++ b) ∧
        (∃ a b, footerText "UID-X" "DOC-Y" i sampleDoc1.pages.length none
          "ts0" = a ++ "DOC-Y" ++ b)) :=
  ⟨by decide,
   claim1_footer_exact sampleLib1 "ts0" [0] "UID-X" "DOC-Y" sampleDoc1 [42]
     rfl rfl⟩

/-- C2 counterexample: the claim quantifies over every supplied
`signatureInfo`, but supplying the empty string is falsy in the source's
`if (signatureInfo)` check, so the footer omits the signature and
timestamp fields instead of appending them. -/
theorem claim2_counterexample :
    footerText "u" "t" 1 3 (some "") "T0" =
      "BeaverDoc - UID: u | Token: t | Page 2/3" ∧
    footerText "u" "t" 1 3 (some "") "T0" ≠
      "BeaverDoc - UID: u | Token: t | Page 2/3 |  | Horodaté le T0" := by
  exact ⟨by decide, by decide⟩

/-- C2 (amended): when `signatureInfo` is supplied and non-empty, every
page's footer carries the appended
`" | <signatureInfo> | Horodaté le <timestamp>"` after the page-position
field; when it is omitted the footer carries neither field. -/
theorem claim2_signature_footer (lib : PdfLib) (ts : String)
    (buf : List Nat) (uid token s : String) (doc : PdfDoc)
    (bytes : List Nat)
    (hs : s.isEmpty = false)
    (hload : lib.load buf = .ok doc)
    (h : addUidAndTokenToPdf lib ts buf uid token (some s) = .ok bytes) :
    ∃ font stamped,
      lib.embedFont doc helvetica = .ok font ∧
      stampPages font uid token (some s) ts doc.pages.length 0 doc.pages
        = .ok stamped ∧
      lib.save { pages := stamped } = .ok bytes ∧
      ∀ i, i < doc.pages.length → ∃ p tw,
        doc.pages[i]? = some p ∧
        stamped[i]? = some (drawText p
          (footerOp (footerText uid token i doc.pages.length (some s) ts)
            p.width tw)) ∧
        footerText uid token i doc.pages.length (some s) ts =
          "BeaverDoc - UID: " ++ uid ++ " | Token: " ++ token ++ " | Page "
            ++ toString (i + 1) ++ "/" ++ toString doc.pages.length
            ++ " | " ++ s ++ " | Horodaté le " ++ ts ∧
        footerText uid token i doc.pages.length none ts =
          "BeaverDoc - UID: " ++ uid ++ " | Token: " ++ token ++ " | Page "
            ++ toString (i + 1) ++ "/" ++ toString doc.pages.length := by
  obtain ⟨doc2, font, stamped, hload2, hfont, hstamp, hsave⟩ :=
    addUidAndTokenToPdf_ok_elim h
  rw [hload] at hload2
  cases hload2
  refine ⟨font, stamped, hfont, hstamp, hsave, ?_⟩
  intro i hi
  obtain ⟨p, tw, hp, htw, hout⟩ := (stampPages_ok_spec hstamp).2 i hi
  rw [Nat.zero_add] at htw hout
  exact ⟨p, tw, hp, hout,
    footerText_some uid token i doc.pages.length s ts hs,
    footerText_none uid token i doc.pages.length ts⟩

/-- C2 witness: a three-page document with signature `Signed by Alice` has
page 2's footer
`BeaverDoc - UID: u | Token: t | Page 2/3 | Signed by Alice | Horodaté le ts0`. -/
theorem claim2_witness :
    footerText "u" "t" 1 3 (some "Signed by Alice") "ts0" =
      "BeaverDoc - UID: u | Token: t | Page 2/3 | Signed by Alice | Horodaté le ts0" ∧
    (∃ font stamped,
      sampleLib3.embedFont sampleDoc3 helvetica = .ok font ∧
      stampPages font "u" "t" (some "Signed by Alice") "ts0"
        sampleDoc3.pages.length 0 sampleDoc3.pages = .ok stamped ∧
      sampleLib3.save { pages := stamped } = .ok [42] ∧
      ∀ i, i < sampleDoc3.pages.length → ∃ p tw,
        sampleDoc3.pages[i]? = some p ∧
        stamped[i]? = some (drawText p
          (footerOp (footerText "u" "t" i sampleDoc3.pages.length
            (some "Signed by Alice") "ts0") p.width tw)) ∧
        footerText "u" "t" i sampleDoc3.pages.length
          (some "Signed by Alice") "ts0" =
          "BeaverDoc - UID: " ++ "u" ++ " | Token: " ++ "t" ++ " | Page "
            ++ toString (i + 1) ++ "/" ++ toString sampleDoc3.pages.length
            ++ " | " ++ "Signed by Alice" ++ " | Horodaté le " ++ "ts0" ∧
        footerText "u" "t" i sampleDoc3.pages.length none "ts0" =
          "BeaverDoc - UID: " ++ "u" ++ " | Token: " ++ "t" ++ " | Page "
            ++ toString (i + 1) ++ "/"
            ++ toString sampleDoc3.pages.length) :=
  ⟨by decide,
   claim2_signature_footer sampleLib3 "ts0" [0] "u" "t" "Signed by Alice"
     sampleDoc3 [42] rfl rfl rfl⟩

/-- C3: the footer is placed at `x = (W - Tw) / 2` and `y = 10` at font
size 6, with no special case: `x` is negative whenever the measured text
is wider than the page. -/
theorem claim3_centering (font : PdfFont) (uid token : String)
    (sig : Option String) (ts : String) (n i : Nat) (page : PdfPage)
    (tw : ℚ)
    (h : font.widthOfTextAtSize (footerText uid token i n sig ts) fontSize
      = .ok tw) :
    stampPage font uid token sig ts n i page =
      .ok (drawText page
        (footerOp (footerText uid token i n sig ts) page.width tw)) ∧
    (footerOp (footerText uid token i n sig ts) page.width tw).x
      = (page.width - tw) / 2 ∧
    (footerOp (footerText uid token i n sig ts) page.width tw).y = 10 ∧
    (footerOp (footerText uid token i n sig ts) page.width tw).size = 6 ∧
    (page.width < tw →
      (footerOp (footerText uid token i n sig ts) page.width tw).x < 0) := by
  refine ⟨stampPage_ok_iff.mpr ⟨tw, h, rfl⟩, rfl, rfl, rfl, ?_⟩
  intro hw
  have hneg : page.width - tw < 0 := by linarith
  exact div_neg_of_neg_of_pos hneg (by norm_num)

/-- C3 witness: on a page of width 10 with measured text width 40 the
computed x is negative. -/
theorem claim3_witness :
    wideFont.widthOfTextAtSize (footerText "u" "t" 0 1 none "ts0") fontSize
      = .ok 40 ∧
    narrowPage.width < 40 ∧
    (footerOp (footerText "u" "t" 0 1 none "ts0") narrowPage.width 40).x < 0 ∧
    stampPage wideFont "u" "t" none "ts0" 1 0 narrowPage =
      .ok (drawText narrowPage
        (footerOp (footerText "u" "t" 0 1 none "ts0") narrowPage.width 40)) :=
  ⟨rfl, by decide,
   (claim3_centering wideFont "u" "t" none "ts0" 1 0 narrowPage 40 rfl).2.2.2.2
     (by decide),
   (claim3_centering wideFont "u" "t" none "ts0" 1 0 narrowPage 40 rfl).1⟩

/-- C4: stamping preserves the page count, adds exactly one footer overlay
per page, and preserves each page's original content and size. -/
theorem claim4_additive (lib : PdfLib) (ts : String) (buf : List Nat)
    (uid token : String) (sig : Option String) (doc : PdfDoc)
    (bytes : List Nat)
    (hload : lib.load buf = .ok doc)
    (h : addUidAndTokenToPdf lib ts buf uid token sig = .ok bytes) :
    ∃ font stamped,
      lib.embedFont doc helvetica = .ok font ∧
      stampPages font uid token sig ts doc.pages.length 0 doc.pages
        = .ok stamped ∧
      lib.save { pages := stamped } = .ok bytes ∧
      stamped.length = doc.pages.length ∧
      ∀ i, i < doc.pages.length → ∃ p q op,
        doc.pages[i]? = some p ∧
        stamped[i]? = some q ∧
        q.ops = p.ops ++ [op] ∧
        q.ops.length = p.ops.length + 1 ∧
        q.width = p.width ∧
        q.height = p.height := by
  obtain ⟨doc2, font, stamped, hload2, hfont, hstamp, hsave⟩ :=
    addUidAndTokenToPdf_ok_elim h
  rw [hload] at hload2
  cases hload2
  obtain ⟨hlen, hall⟩ := stampPages_ok_spec hstamp
  refine ⟨font, stamped, hfont, hstamp, hsave, hlen, ?_⟩
  intro i hi
  obtain ⟨p, tw, hp, htw, hout⟩ := hall i hi
  exact ⟨p, _,
    footerOp (footerText uid token (0 + i) doc.pages.length sig ts)
      p.width tw,
    hp, hout, rfl, by simp [drawText], rfl, rfl⟩

/-- C4 witness: the concrete one-page sample keeps its page count and its
page gains exactly one drawing operation. -/
theorem claim4_witness :
    ∃ font stamped,
      sampleLib1.embedFont sampleDoc1 helvetica = .ok font ∧
      stampPages font "U1" "T1" none "ts0" sampleDoc1.pages.length 0
        sampleDoc1.pages = .ok stamped ∧
      sampleLib1.save { pages := stamped } = .ok [42] ∧
      stamped.length = sampleDoc1.pages.length ∧
      ∀ i, i < sampleDoc1.pages.length → ∃ p q op,
        sampleDoc1.pages[i]? = some p ∧
        stamped[i]? = some q ∧
        q.ops = p.ops ++ [op] ∧
        q.ops.length = p.ops.length + 1 ∧
        q.width = p.width ∧
        q.height = p.height :=
  claim4_additive sampleLib1 "ts0" [0] "U1" "T1" none sampleDoc1 [42]
    rfl rfl

/-- C5: within one invocation all footers share one prefix and one suffix
and differ only in the 1-based page-position number; when the signature is
truthy the shared suffix carries the single per-invocation timestamp, so
every page shows the same timestamp. -/
theorem claim5_uniform (font : PdfFont) (uid token : String)
    (sig : Option String) (ts : String) (ps out : List PdfPage)
    (h : stampPages font uid token sig ts ps.length 0 ps = .ok out) :
    ∃ pre suf,
      (∀ i, i < ps.length → ∃ p tw,
        ps[i]? = some p ∧
        out[i]? = some (drawText p
          (footerOp (pre ++ toString (i + 1) ++ suf) p.width tw))) ∧
      (jsTruthyStr sig = false → suf = "/" ++ toString ps.length) ∧
      (∀ s, sig = some s → s.isEmpty = false →
        suf = "/" ++ toString ps.length ++ " | " ++ s
          ++ " | Horodaté le " ++ ts) := by
  refine ⟨"BeaverDoc - UID: " ++ uid ++ " | Token: " ++ token ++ " | Page ",
    if jsTruthyStr sig then
      "/" ++ toString ps.length ++ " | " ++ sig.getD ""
        ++ " | Horodaté le " ++ ts
    else "/" ++ toString ps.length, ?_, ?_, ?_⟩
  · intro i hi
    obtain ⟨p, tw, hp, htw, hout⟩ := (stampPages_ok_spec h).2 i hi
    rw [Nat.zero_add] at hout
    refine ⟨p, tw, hp, ?_⟩
    rw [← footerText_split]
    exact hout
  · intro hf
    simp [hf]
  · intro s hsig hs
    subst hsig
    simp [jsTruthyStr, hs]

/-- C5 witness: the three-page sample stamped with a signature carries the
shared-prefix/shared-suffix decomposition, the suffix holding the one
timestamp. -/
theorem claim5_witness :
    ∃ pre suf,
      (∀ i, i < sampleDoc3.pages.length → ∃ p tw,
        sampleDoc3.pages[i]? = some p ∧
        stampedDoc3Pages[i]? = some (drawText p
          (footerOp (pre ++ toString (i + 1) ++ suf) p.width tw))) ∧
      (jsTruthyStr (some "Sig") = false →
        suf = "/" ++ toString sampleDoc3.pages.length) ∧
      (∀ s, (some "Sig" : Option String) = some s → s.isEmpty = false →
        suf = "/" ++ toString sampleDoc3.pages.length ++ " | " ++ s
          ++ " | Horodaté le " ++ "ts0") :=
  claim5_uniform sampleFont "u" "t" (some "Sig") "ts0" sampleDoc3.pages
    stampedDoc3Pages rfl

/-- C6: every run of the stamper, on any input bytes and with any library
behaviour, either returns fully stamped bytes (every page of the saved
collection carries its footer: never a partial result) or the single
generic error, whose text is the fixed constant `genericStampError`
independent of the underlying cause. -/
theorem claim6_all_or_nothing (lib : PdfLib) (ts : String) (buf : List Nat)
    (uid token : String) (sig : Option String) :
    (∃ bytes doc font stamped,
        addUidAndTokenToPdf lib ts buf uid token sig = .ok bytes ∧
        lib.load buf = .ok doc ∧
        lib.embedFont doc helvetica = .ok font ∧
        stampPages font uid token sig ts doc.pages.length 0 doc.pages
          = .ok stamped ∧
        lib.save { pages := stamped } = .ok bytes ∧
        stamped.length = doc.pages.length ∧
        ∀ i, i < doc.pages.length → ∃ p op,
          doc.pages[i]? = some p ∧
          stamped[i]? = some (drawText p op)) ∨
      addUidAndTokenToPdf lib ts buf uid token sig
        = .error genericStampError := by
  rcases addUidAndTokenToPdf_ok_or_generic lib ts buf uid token sig with
    ⟨bytes, hb⟩ | he
  · left
    obtain ⟨doc, font, stamped, h1, h2, h3, h4⟩ :=
      addUidAndTokenToPdf_ok_elim hb
    obtain ⟨hlen, hall⟩ := stampPages_ok_spec h3
    refine ⟨bytes, doc, font, stamped, hb, h1, h2, h3, h4, hlen, ?_⟩
    intro i hi
    obtain ⟨p, tw, hp, htw, hout⟩ := hall i hi
    exact ⟨p, _, hp, hout⟩
  · right
    exact he

/-- C7: stamping is not idempotent: re-running the stamper on the bytes of
an already-stamped document appends a second footer operation after the
first one, which is kept, so footers accumulate. -/
theorem claim7_not_idempotent (lib : PdfLib) (ts1 ts2 : String)
    (buf b1 b2 : List Nat) (uid1 token1 uid2 token2 : String)
    (sig1 sig2 : Option String) (ps out1 out2 : List PdfPage)
    (font1 font2 : PdfFont)
    (hload : lib.load buf = .ok { pages := ps })
    (hfont1 : lib.embedFont { pages := ps } helvetica = .ok font1)
    (hstamp1 : stampPages font1 uid1 token1 sig1 ts1 ps.length 0 ps
      = .ok out1)
    (hsave1 : lib.save { pages := out1 } = .ok b1)
    (hload2 : lib.load b1 = .ok { pages := out1 })
    (hfont2 : lib.embedFont { pages := out1 } helvetica = .ok font2)
    (hstamp2 : stampPages font2 uid2 token2 sig2 ts2 out1.length 0 out1
      = .ok out2)
    (hsave2 : lib.save { pages := out2 } = .ok b2) :
    addUidAndTokenToPdf lib ts1 buf uid1 token1 sig1 = .ok b1 ∧
    addUidAndTokenToPdf lib ts2 b1 uid2 token2 sig2 = .ok b2 ∧
    ∀ i, i < ps.length → ∃ p op1 op2 q1 q2,
      ps[i]? = some p ∧
      out1[i]? = some q1 ∧
      out2[i]? = some q2 ∧
      q1.ops = p.ops ++ [op1] ∧
      q2.ops = p.ops ++ [op1, op2] ∧
      op1 ∈ q2.ops ∧
      q2.ops.length = p.ops.length + 2 ∧
      op1.text = footerText uid1 token1 i ps.length sig1 ts1 ∧
      op2.text = footerText uid2 token2 i out1.length sig2 ts2 := by
  obtain ⟨hlen1, hall1⟩ := stampPages_ok_spec hstamp1
  obtain ⟨hlen2, hall2⟩ := stampPages_ok_spec hstamp2
  refine ⟨addUidAndTokenToPdf_ok_intro hload hfont1 hstamp1 hsave1,
    addUidAndTokenToPdf_ok_intro hload2 hfont2 hstamp2 hsave2, ?_⟩
  intro i hi
  obtain ⟨p, tw1, hp, htw1, hout1⟩ := hall1 i hi
  rw [Nat.zero_add] at hout1
  have hi2 : i < out1.length := by rw [hlen1]; exact hi
  obtain ⟨q1, tw2, hq1, htw2, hout2⟩ := hall2 i hi2
  rw [Nat.zero_add] at hout2
  rw [hout1] at hq1
  injection hq1 with hq1
  subst hq1
  set A := footerOp (footerText uid1 token1 i ps.length sig1 ts1)
    p.width tw1 with hA
  set B := footerOp (footerText uid2 token2 i out1.length sig2 ts2)
    (drawText p A).width tw2 with hB
  refine ⟨p, A, B, drawText p A, drawText (drawText p A) B,
    hp, hout1, hout2, rfl, ?_, ?_, ?_, rfl, rfl⟩
  · simp [drawText]
  · simp [drawText]
  · simp [drawText]

/-- C7 witness: stamping the concrete one-page sample twice through the
round-tripping library leaves two accumulated footers on the page. -/
theorem claim7_witness :
    addUidAndTokenToPdf roundLib "ts0" [0] "u" "t" none = .ok [1] ∧
    addUidAndTokenToPdf roundLib "ts0" [1] "u" "t" none = .ok [1] ∧
    ∀ i, i < ([samplePage] : List PdfPage).length → ∃ p op1 op2 q1 q2,
      ([samplePage] : List PdfPage)[i]? = some p ∧
      stampedOncePages[i]? = some q1 ∧
      stampedTwicePages[i]? = some q2 ∧
      q1.ops = p.ops ++ [op1] ∧
      q2.ops = p.ops ++ [op1, op2] ∧
      op1 ∈ q2.ops ∧
      q2.ops.length = p.ops.length + 2 ∧
      op1.text = footerText "u" "t" i
        ([samplePage] : List PdfPage).length none "ts0" ∧
      op2.text = footerText "u" "t" i stampedOncePages.length none "ts0" :=
  claim7_not_idempotent roundLib "ts0" "ts0" [0] [1] [1] "u" "t" "u" "t"
    none none [samplePage] stampedOncePages stampedTwicePages sampleFont
    sampleFont rfl rfl rfl rfl rfl rfl rfl rfl

/-- C8: the caller-side generators produce
`UID-<date>-<time>-USR0042-CPY7890-<16 hex chars>` and
`DOC-<date>-<time>-<16 hex chars>`, while the stamper itself only renders
the received strings verbatim into the footer. -/
theorem claim8_generator_format (date time uuid : String)
    (hlen : 16 ≤ (stripDashes uuid).length)
    (hhex : ∀ c ∈ (stripDashes uuid).data, isHexDigitChar c = true) :
    ∃ r : String,
      generateUID date time uuid =
        "UID-" ++ date ++ "-" ++ time ++ "-USR0042-CPY7890-" ++ r ∧
      generateToken date time uuid =
        "DOC-" ++ date ++ "-" ++ time ++ "-" ++ r ∧
      r.length = 16 ∧
      (∀ c ∈ r.data, isHexDigitChar c = true) ∧
      (∀ u t i n sg ts2, ∃ a b, footerText u t i n sg ts2 = a ++ u ++ b) ∧
      (∀ u t i n sg ts2, ∃ a b, footerText u t i n sg ts2 = a ++ t ++ b) := by
  refine ⟨jsSubstring (stripDashes uuid) 16,
    generateUID_shape date time uuid,
    generateToken_shape date time uuid,
    jsSubstring_length _ 16 hlen, ?_,
    footerText_has_uid, footerText_has_token⟩
  intro c hc
  exact hhex c (jsSubstring_mem _ 16 c hc)

/-- A concrete `randomUUID()` value. -/
def uuidSample : String := "123e4567-e89b-12d3-a456-426614174000"

/-- C8 witness: the concrete generator outputs for a fixed date, time and
UUID. -/
theorem claim8_witness :
    generateUID "20261012" "093000" uuidSample =
      "UID-20261012-093000-USR0042-CPY7890-123e4567e89b12d3" ∧
    generateToken "20261012" "093000" uuidSample =
      "DOC-20261012-093000-123e4567e89b12d3" ∧
    ∃ r : String,
      generateUID "20261012" "093000" uuidSample =
        "UID-" ++ "20261012" ++ "-" ++ "093000" ++ "-USR0042-CPY7890-"
          ++ r ∧
      generateToken "20261012" "093000" uuidSample =
        "DOC-" ++ "20261012" ++ "-" ++ "093000" ++ "-" ++ r ∧
      r.length = 16 ∧
      (∀ c ∈ r.data, isHexDigitChar c = true) ∧
      (∀ u t i n sg ts2, ∃ a b, footerText u t i n sg ts2 = a ++ u ++ b) ∧
      (∀ u t i n sg ts2, ∃ a b, footerText u t i n sg ts2 = a ++ t ++ b) :=
  ⟨by decide, by decide,
   claim8_generator_format "20261012" "093000" uuidSample (by decide)
     (by decide)⟩

/-- C9: supplying the empty string as `signatureInfo` is falsy under the
source's `if (signatureInfo)` check, so the stamper behaves exactly as if
the argument were absent: the footer omits both the signature field and
the timestamp field. -/
theorem claim9_empty_signature (lib : PdfLib) (ts : String)
    (buf : List Nat) (uid token : String) :
    addUidAndTokenToPdf lib ts buf uid token (some "") =
      addUidAndTokenToPdf lib ts buf uid token none ∧
    (∀ i n, footerText uid token i n (some "") ts =
      footerText uid token i n none ts) ∧
    (∀ i n, footerText uid token i n (some "") ts =
      "BeaverDoc - UID: " ++ uid ++ " | Token: " ++ token ++ " | Page "
        ++ toString (i + 1) ++ "/" ++ toString n) ∧
    jsTruthyStr (some "") = false ∧
    (some "" : Option String) ≠ none := by
  refine ⟨addUidAndTokenToPdf_some_empty lib ts buf uid token,
    fun i n => footerText_some_empty uid token i n ts,
    fun i n => ?_, rfl, by decide⟩
  rw [footerText_some_empty]
  exact footerText_none uid token i n ts

/-! ### Lemmas about the upload handler -/

theorem uploadHandler_file_none (env : UploadEnv) (req : UploadReq)
    (h : req.file = none) :
    uploadHandler env req = .badRequest noFileMsg := by
  unfold uploadHandler
  simp only [uploadTryBody, h]

/-- Assembling a successful run of the `try` body from its steps. -/
theorem uploadTryBody_intro (env : UploadEnv) (req : UploadReq)
    (f : UploadFile) (options : UploadOptions) (vdoc : DocRecord)
    (d : StoredDoc)
    (hf : req.file = some f)
    (h1 : (if jsTruthyStr req.options then
        env.parseOptionsJson (req.options.getD "")
      else (Except.ok defaultUploadOptions : Except String UploadOptions))
      = .ok options)
    (h2 : env.validateDoc
      { name := f.originalname
      , uid := env.uidVal
      , token := env.tokenVal
      , content := env.base64 f.buffer
      , contentType := f.mimetype
      , size := env.formatSize f.size
      , creatorId := 1
      , isSigned := options.signAfterImport } = .ok vdoc)
    (h3 : env.createDocument vdoc = .ok d)
    (h4 : env.createAuditLog
      { documentId := d.id
      , userId := 1
      , action := "create"
      , details := "Document uploaded: " ++ f.originalname } = .ok ()) :
    uploadTryBody env req = .ok (.created d) := by
  simp only [uploadTryBody, hf, h1, h2, h3, h4]

/-- A run of the `try` body with a file attached either throws or returns
201 with the document created by storage after both storage calls
succeeded. -/
theorem uploadTryBody_some_elim (env : UploadEnv) (req : UploadReq)
    (f : UploadFile) (hf : req.file = some f) :
    (∃ e, uploadTryBody env req = .error e) ∨
    ∃ options vdoc d,
      (if jsTruthyStr req.options then
          env.parseOptionsJson (req.options.getD "")
        else (Except.ok defaultUploadOptions : Except String UploadOptions))
        = .ok options ∧
      env.validateDoc
        { name := f.originalname
        , uid := env.uidVal
        , token := env.tokenVal
        , content := env.base64 f.buffer
        , contentType := f.mimetype
        , size := env.formatSize f.size
        , creatorId := 1
        , isSigned := options.signAfterImport } = .ok vdoc ∧
      env.createDocument vdoc = .ok d ∧
      env.createAuditLog
        { documentId := d.id
        , userId := 1
        , action := "create"
        , details := "Document uploaded: " ++ f.originalname } = .ok () ∧
      uploadTryBody env req = .ok (.created d) := by
  cases h1 : (if jsTruthyStr req.options then
      env.parseOptionsJson (req.options.getD "")
    else (Except.ok defaultUploadOptions : Except String UploadOptions)) with
  | error e => exact .inl ⟨e, by simp only [uploadTryBody, hf, h1]⟩
  | ok options =>
    cases h2 : env.validateDoc
        { name := f.originalname
        , uid := env.uidVal
        , token := env.tokenVal
        , content := env.base64 f.buffer
        , contentType := f.mimetype
        , size := env.formatSize f.size
        , creatorId := 1
        , isSigned := options.signAfterImport } with
    | error e => exact .inl ⟨e, by simp only [uploadTryBody, hf, h1, h2]⟩
    | ok vdoc =>
      cases h3 : env.createDocument vdoc with
      | error e =>
        exact .inl ⟨e, by simp only [uploadTryBody, hf, h1, h2, h3]⟩
      | ok d =>
        cases h4 : env.createAuditLog
            { documentId := d.id
            , userId := 1
            , action := "create"
            , details := "Document uploaded: " ++ f.originalname } with
        | error e =>
          exact .inl ⟨e, by simp only [uploadTryBody, hf, h1, h2, h3, h4]⟩
        | ok u =>
          cases u
          exact .inr ⟨options, vdoc, d, rfl, h2, h3, h4,
            uploadTryBody_intro env req f options vdoc d hf h1 h2 h3 h4⟩

/-! ### Claim C10 -/

/-- The sample upload environment in which every collaborator succeeds and
only an empty options string is rejected by the JSON parser (as
JavaScript's JSON.parse rejects the empty string). -/
def strictJsonUploadEnv : UploadEnv :=
  { parseOptionsJson := fun s =>
      if s = "" then .error "Unexpected end of JSON input"
      else .ok defaultUploadOptions
  , validateDoc := fun d => .ok d
  , createDocument := fun d => .ok { id := 7, stored := d }
  , createAuditLog := fun _ => .ok ()
  , base64 := fun _ => "QkVBVkVS"
  , formatSize := fun _ => "0.00 MB"
  , uidVal := "UID-1"
  , tokenVal := "DOC-1" }

def uploadFileSample : UploadFile :=
  { originalname := "a.pdf"
  , buffer := [1, 2]
  , mimetype := "application/pdf"
  , size := 2 }

/-- A request with a file attached and a present but empty options
string. -/
def emptyOptionsReq : UploadReq :=
  { file := some uploadFileSample, options := some "" }

/-- A request with no file attached. -/
def noFileReq : UploadReq := { file := none, options := none }

/-- A well-formed request with a file and no options field. -/
def plainUploadReq : UploadReq :=
  { file := some uploadFileSample, options := none }

/-- C10 counterexample: an options string that is present but
syntactically invalid JSON — the empty string — does not yield a 500:
the source's truthiness check skips `JSON.parse` entirely and the upload
succeeds with 201. -/
theorem claim10_counterexample :
    emptyOptionsReq.options = some "" ∧
    strictJsonUploadEnv.parseOptionsJson "" =
      .error "Unexpected end of JSON input" ∧
    uploadHandler strictJsonUploadEnv emptyOptionsReq =
      .created
        { id := 7
        , stored :=
          { name := "a.pdf"
          , uid := "UID-1"
          , token := "DOC-1"
          , content := "QkVBVkVS"
          , contentType := "application/pdf"
          , size := "0.00 MB"
          , creatorId := 1
          , isSigned := false } } ∧
    uploadHandler strictJsonUploadEnv emptyOptionsReq ≠
      .serverError uploadErrorMsg := by
  exact ⟨rfl, rfl, rfl, by decide⟩

/-- C10 (amended): the upload route responds 400 exactly when no file is
attached; every thrown failure (parsing a truthy options string, schema
validation, either storage call) yields the one generic 500; and 201 with
the created document is returned exactly when every step succeeded — an
empty options string is falsy, so it is treated as absent rather than
parsed. -/
theorem claim10_upload_statuses (env : UploadEnv) (req : UploadReq) :
    (req.file = none → uploadHandler env req = .badRequest noFileMsg) ∧
    (∀ m, uploadHandler env req = .badRequest m →
      req.file = none ∧ m = noFileMsg) ∧
    (∀ m, uploadHandler env req = .serverError m → m = uploadErrorMsg) ∧
    (∀ f, req.file = some f → ∀ d,
      (uploadHandler env req = .created d ↔
        ∃ options vdoc,
          (if jsTruthyStr req.options then
              env.parseOptionsJson (req.options.getD "")
            else (Except.ok defaultUploadOptions :
              Except String UploadOptions)) = .ok options ∧
          env.validateDoc
            { name := f.originalname
            , uid := env.uidVal
            , token := env.tokenVal
            , content := env.base64 f.buffer
            , contentType := f.mimetype
            , size := env.formatSize f.size
            , creatorId := 1
            , isSigned := options.signAfterImport } = .ok vdoc ∧
          env.createDocument vdoc = .ok d ∧
          env.createAuditLog
            { documentId := d.id
            , userId := 1
            , action := "create"
            , details := "Document uploaded: " ++ f.originalname }
            = .ok ())) := by
  cases hfile : req.file with
  | none =>
    have hh := uploadHandler_file_none env req hfile
    refine ⟨fun _ => hh, fun m hm => ⟨rfl, ?_⟩, fun m hm => ?_,
      fun f hf => ?_⟩
    · rw [hh] at hm
      injection hm with h
      exact h.symm
    · rw [hh] at hm
      cases hm
    · cases hf
  | some f0 =>
    rcases uploadTryBody_some_elim env req f0 hfile with
      ⟨e, he⟩ | ⟨options0, vdoc0, d0, h1, h2, h3, h4, hok⟩
    · have hh : uploadHandler env req = .serverError uploadErrorMsg := by
        unfold uploadHandler
        simp only [he]
      refine ⟨fun hn => ?_, fun m hm => ?_, fun m hm => ?_,
        fun f hf d => ?_⟩
      · cases hn
      · rw [hh] at hm
        cases hm
      · rw [hh] at hm
        injection hm with h
        exact h.symm
      · injection hf with hf
        subst hf
        constructor
        · intro hc
          rw [hh] at hc
          cases hc
        · rintro ⟨options, vdoc, g1, g2, g3, g4⟩
          have := uploadTryBody_intro env req f0 options vdoc d hfile
            g1 g2 g3 g4
          rw [he] at this
          cases this
    · have hh : uploadHandler env req = .created d0 := by
        unfold uploadHandler
        simp only [hok]
      refine ⟨fun hn => ?_, fun m hm => ?_, fun m hm => ?_,
        fun f hf d => ?_⟩
      · cases hn
      · rw [hh] at hm
        cases hm
      · rw [hh] at hm
        cases hm
      · injection hf with hf
        subst hf
        constructor
        · intro hc
          rw [hh] at hc
          injection hc with hc
          subst hc
          exact ⟨options0, vdoc0, h1, h2, h3, h4⟩
        · rintro ⟨options, vdoc, g1, g2, g3, g4⟩
          have hd := uploadTryBody_intro env req f0 options vdoc d hfile
            g1 g2 g3 g4
          rw [hok] at hd
          injection hd with hd
          injection hd with hd
          rw [← hd]
          exact hh

/-- C10 witness: concretely, the no-file request gets 400 and the
well-formed request gets 201 with the stored document. -/
theorem claim10_witness :
    uploadHandler strictJsonUploadEnv noFileReq = .badRequest noFileMsg ∧
    uploadHandler strictJsonUploadEnv plainUploadReq =
      .created
        { id := 7
        , stored :=
          { name := "a.pdf"
          , uid := "UID-1"
          , token := "DOC-1"
          , content := "QkVBVkVS"
          , contentType := "application/pdf"
          , size := "0.00 MB"
          , creatorId := 1
          , isSigned := false } } := by
  constructor
  · exact (claim10_upload_statuses strictJsonUploadEnv noFileReq).1 rfl
  · exact ((claim10_upload_statuses strictJsonUploadEnv
        plainUploadReq).2.2.2 uploadFileSample rfl _).mpr
      ⟨defaultUploadOptions, _, rfl, rfl, rfl, rfl⟩

end BeaverDoc
